import Mathlib

/-!
Verification development for the `claude-code-cli` glue layer.

The CLI wraps an external agent SDK and an OTLP telemetry exporter.  We embed
the repository's own code shallowly: Python dictionaries, lists, strings,
numbers and arbitrary objects become the inductive type `PyValue`; the float
amounts in the fixed demo dataset are exact multiples of 0.01 and are modelled
in integer cents; fallible code returns `Except`; side-effecting code returns
an explicit list of effects (console prints and structured log calls).
-/

/-- A Python value as it flows through the CLI.  `pyFloat` stores the value in
integer cents: every float literal in the repository (invoice amounts) is an
exact multiple of 0.01.  `pyObj` is a non-JSON-serializable object whose
`str()` rendering is the stored string. -/
inductive PyValue where
  | pyNone
  | pyBool (b : Bool)
  | pyInt (n : Int)
  | pyFloat (cents : Int)
  | pyStr (s : String)
  | pyList (items : List PyValue)
  | pyDict (entries : List (String × PyValue))
  | pyObj (rendering : String)

/-- Python `repr()` of a float that is an exact multiple of 0.01, e.g.
`1200.0` and `580.5` for the fixed invoice amounts (shortest round-trip form,
trailing zeros dropped but at least one fractional digit kept). -/
def floatRepr (cents : Int) : String :=
  let sign := if cents < 0 then "-" else ""
  let a := cents.natAbs
  let whole := a / 100
  let frac := a % 100
  if frac = 0 then sign ++ toString whole ++ ".0"
  else if frac % 10 = 0 then sign ++ toString whole ++ "." ++ toString (frac / 10)
  else sign ++ toString whole ++ "." ++ (if frac < 10 then "0" else "") ++ toString frac

mutual

/-- Python `repr()` of a value (single-quoted strings, `True`/`False`/`None`). -/
def pyRepr : PyValue → String
  | .pyNone => "None"
  | .pyBool b => if b then "True" else "False"
  | .pyInt n => toString n
  | .pyFloat c => floatRepr c
  | .pyStr s => "\x27" ++ s ++ "\x27"
  | .pyList items => "[" ++ String.intercalate ", " (pyReprList items) ++ "]"
  | .pyDict entries => "\x7b" ++ String.intercalate ", " (pyReprEntries entries) ++ "\x7d"
  | .pyObj rendering => rendering

def pyReprList : List PyValue → List String
  | [] => []
  | v :: vs => pyRepr v :: pyReprList vs

def pyReprEntries : List (String × PyValue) → List String
  | [] => []
  | (k, v) :: es => ("\x27" ++ k ++ "\x27: " ++ pyRepr v) :: pyReprEntries es

end

/-- Python `str()`: the bare string for `str` values, `repr` otherwise. -/
def pyStrOf : PyValue → String
  | .pyStr s => s
  | v => pyRepr v

/-- JSON string escaping (the repository's strings are plain ASCII). -/
def jsonEscape (s : String) : String :=
  s.foldl (fun acc c =>
    acc ++ (if c = '"' then "\\\"" else if c = '\\' then "\\\\"
            else if c = '\n' then "\\n" else if c = '\t' then "\\t"
            else if c = '\r' then "\\r" else String.singleton c)) ""

/-- `ind` spaces of indentation. -/
def pad (ind : Nat) : String := String.mk (List.replicate ind ' ')

/-- Insertion into a key-sorted list of (key, rendered value) pairs. -/
def insertByKey (p : String × String) : List (String × String) → List (String × String)
  | [] => [p]
  | q :: qs => if q.1 < p.1 then q :: insertByKey p qs else p :: q :: qs

/-- Sort rendered dictionary entries by key (models `sort_keys=True`; rendering
a value does not depend on its position, so sorting after rendering agrees
with sorting before). -/
def sortByKey : List (String × String) → List (String × String)
  | [] => []
  | p :: ps => insertByKey p (sortByKey ps)

mutual

/-- `json.dumps(v, indent=2, sort_keys=True)` at indentation level `ind`.
`Except Unit` models the `TypeError` raised on a non-serializable object. -/
def dumpValue (ind : Nat) : PyValue → Except Unit String
  | .pyNone => .ok "null"
  | .pyBool b => .ok (if b then "true" else "false")
  | .pyInt n => .ok (toString n)
  | .pyFloat c => .ok (floatRepr c)
  | .pyStr s => .ok ("\"" ++ jsonEscape s ++ "\"")
  | .pyList [] => .ok "[]"
  | .pyList (v :: vs) => do
      let rendered ← dumpList (ind + 2) (v :: vs)
      .ok ("[\n" ++ String.intercalate ",\n" (rendered.map (fun r => pad (ind + 2) ++ r)) ++
        "\n" ++ pad ind ++ "]")
  | .pyDict [] => .ok "\x7b\x7d"
  | .pyDict (e :: es) => do
      let rendered ← dumpEntries (ind + 2) (e :: es)
      let sorted := sortByKey rendered
      .ok ("\x7b\n" ++ String.intercalate ",\n"
          (sorted.map (fun kv => pad (ind + 2) ++ "\"" ++ jsonEscape kv.1 ++ "\": " ++ kv.2)) ++
        "\n" ++ pad ind ++ "\x7d")
  | .pyObj _ => .error ()

def dumpList (ind : Nat) : List PyValue → Except Unit (List String)
  | [] => .ok []
  | v :: vs => do
      let r ← dumpValue ind v
      let rs ← dumpList ind vs
      .ok (r :: rs)

def dumpEntries (ind : Nat) : List (String × PyValue) → Except Unit (List (String × String))
  | [] => .ok []
  | (k, v) :: es => do
      let r ← dumpValue ind v
      let rs ← dumpEntries ind es
      .ok ((k, r) :: rs)

end

/-- `json.dumps(data, indent=2, sort_keys=True)` as called by `pretty_json`. -/
def jsonDumps (v : PyValue) : Except Unit String := dumpValue 0 v

/-- `pretty_json`: serialize to JSON; on `TypeError` fall back to `str(data)`.
Total by construction — the embedding of "never raises". -/
def prettyJson (v : PyValue) : String :=
  match jsonDumps v with
  | .ok s => s
  | .error _ => pyStrOf v

/-! ## Fixed demo dataset (`run_demo_tools`) -/

/-- The fixed `sample_user` record. -/
structure SampleUser where
  id : String
  name : String
  preferred_language : String
  tier : String
deriving Repr, DecidableEq

def sampleUser : SampleUser := ⟨"casey-123", "Casey Doe", "en", "pro"⟩

/-- `sample_user` as the Python dict handed to `pretty_json`. -/
def sampleUserPV : PyValue :=
  .pyDict [("id", .pyStr sampleUser.id), ("name", .pyStr sampleUser.name),
    ("preferred_language", .pyStr sampleUser.preferred_language),
    ("tier", .pyStr sampleUser.tier)]

/-- One record of the fixed `open_invoices` list (amount in exact cents). -/
structure Invoice where
  id : String
  amountCents : Int
  status : String
  due_date : String
deriving Repr, DecidableEq

def openInvoices : List Invoice :=
  [⟨"INV-001", 120000, "due", "2024-09-15"⟩,
   ⟨"INV-002", 58050, "overdue", "2024-07-30"⟩]

/-- An invoice as the Python dict appearing in `open_invoices`. -/
def invoicePV (i : Invoice) : PyValue :=
  .pyDict [("id", .pyStr i.id), ("amount", .pyFloat i.amountCents),
    ("status", .pyStr i.status), ("due_date", .pyStr i.due_date)]

/-- The `open_invoices` list as handed to `pretty_json`. -/
def openInvoicesPV : PyValue := .pyList (openInvoices.map invoicePV)

/-! ## Effects and tool embedding -/

/-- One observable side effect of the CLI: a `print(...)` call (recording the
argument string) or a `log_event(logger, event_type, payload)` call. -/
inductive Effect where
  | consolePrint (text : String)
  | logEvent (eventType : String) (payload : List (String × PyValue))

def optPV : Option String → PyValue
  | none => .pyNone
  | some s => .pyStr s

def optBoolPV : Option Bool → PyValue
  | none => .pyNone
  | some b => .pyBool b

/-- The argument dict a demo tool receives; the declared schemas only mention
string-valued keys `user_id` and `focus`, and `args.get(k)` yields `None`
exactly when the key is absent. -/
structure ToolArgs where
  user_id : Option String := none
  focus : Option String := none
deriving Repr, DecidableEq

/-- `args` as the Python dict (only the keys that are present). -/
def toolArgsPV (a : ToolArgs) : PyValue :=
  .pyDict ((match a.user_id with | some s => [("user_id", PyValue.pyStr s)] | none => []) ++
    (match a.focus with | some s => [("focus", PyValue.pyStr s)] | none => []))

/-- A demo tool's return value: the uniform envelope of text content items
(each one a `{"type": "text", "text": ...}` dict, recorded by its text) plus
the optional `is_error` key (`none` when the key is absent). -/
structure ToolResponse where
  content : List String
  is_error : Option Bool := none
deriving Repr, DecidableEq

/-- Python truthiness of an optional string: `None` and `""` are falsy. -/
def truthy : Option String → Bool
  | none => false
  | some s => s != ""

/-- `lookup_user_profile`: the `log_event` call followed by the returned
response.  `if user_id and user_id != sample_user["id"]` is Python truthiness:
a `None` or empty `user_id` falls through to the profile branch. -/
def lookupUserProfile (args : ToolArgs) : Effect × ToolResponse :=
  let logged := Effect.logEvent "tool.lookup_user_profile" [("user_id", optPV args.user_id)]
  match args.user_id with
  | some s =>
      if s != "" && s != sampleUser.id then
        (logged, ⟨["No customer found for id \x27" ++ s ++ "\x27."], some true⟩)
      else
        (logged, ⟨[prettyJson sampleUserPV], none⟩)
  | none => (logged, ⟨[prettyJson sampleUserPV], none⟩)

/-- `list_open_invoices`: same matching rule, but the mismatch branch returns
a plain message with no `is_error` key. -/
def listOpenInvoices (args : ToolArgs) : Effect × ToolResponse :=
  let logged := Effect.logEvent "tool.list_open_invoices" [("user_id", optPV args.user_id)]
  match args.user_id with
  | some s =>
      if s != "" && s != sampleUser.id then
        (logged, ⟨["No open invoices for customer \x27" ++ s ++ "\x27."], none⟩)
      else
        (logged, ⟨[prettyJson openInvoicesPV], none⟩)
  | none => (logged, ⟨[prettyJson openInvoicesPV], none⟩)

/-- `total_due = sum(item["amount"] for item in open_invoices)`, in cents. -/
def totalDueCents : Int := (openInvoices.map Invoice.amountCents).sum

/-- Digit chunks of three, taken from a least-significant-first digit list. -/
def chunk3 : List Char → List (List Char)
  | a :: b :: c :: d :: rest => [a, b, c] :: chunk3 (d :: rest)
  | l => [l]

/-- Thousands grouping of a natural number, e.g. `1780 ↦ "1,780"`. -/
def groupThousands (n : Nat) : String :=
  String.intercalate ","
    (((chunk3 (toString n).toList.reverse).map (fun l => String.mk l.reverse)).reverse)

/-- Python format spec `,.2f` on an exact-cents amount: thousands-grouped
integer part and exactly two fractional digits. -/
def formatMoney (cents : Int) : String :=
  let sign := if cents < 0 then "-" else ""
  let a := cents.natAbs
  let frac := a % 100
  sign ++ groupThousands (a / 100) ++ "." ++ (if frac < 10 then "0" else "") ++ toString frac

/-- `generate_finance_summary`: logs its raw `args`, then returns the summary
composed from the fixed dataset.  `open_invoices[-1]` is the last element of
the (nonempty) fixed list; the default in `getLastD` is never used. -/
def generateFinanceSummary (args : ToolArgs) : Effect × ToolResponse :=
  let logged := Effect.logEvent "tool.generate_finance_summary" [("args", toolArgsPV args)]
  let summary :=
    "Customer " ++ sampleUser.name ++ " currently owes $" ++ formatMoney totalDueCents ++
    " across " ++ toString openInvoices.length ++
    " invoices. The most urgent item is invoice " ++
    (openInvoices.getLastD ⟨"", 0, "", ""⟩).id ++ " which is marked overdue."
  (logged, ⟨[summary], none⟩)

/-! ## Streamed messages and `handle_message` -/

/-- The fields of the SDK `ResultMessage` that the CLI reads (the dataclass is
external; only the accessed fields are modelled).  `total_cost_usd` is a float
or `None` in Python, kept as a `PyValue`. -/
structure ResultMsg where
  duration_ms : Int
  duration_api_ms : Int
  total_cost_usd : PyValue
  num_turns : Int

/-- A content block of an `AssistantMessage`.  `otherBlock` is any block that
matches none of the three `isinstance` arms (its `str()` rendering stored). -/
inductive ContentBlock where
  | textBlock (text : String)
  | toolUseBlock (id : String) (name : String) (input : PyValue)
  | toolResultBlock (tool_use_id : String) (content : PyValue) (is_error : Option Bool)
  | otherBlock (rendering : String)

/-- A streamed message.  `other` is any message matching none of the
`isinstance` arms of `handle_message` (e.g. an echo of the user message). -/
inductive Message where
  | assistant (model : String) (content : List ContentBlock)
  | system (subtype : String) (data : PyValue)
  | result (r : ResultMsg)
  | other (rendering : String)

/-- `asdict` on the modelled fields of `ResultMessage`. -/
def resultAsDict (r : ResultMsg) : PyValue :=
  .pyDict [("duration_ms", .pyInt r.duration_ms), ("duration_api_ms", .pyInt r.duration_api_ms),
    ("total_cost_usd", r.total_cost_usd), ("num_turns", .pyInt r.num_turns)]

/-- The argument `sanitize_content` can receive from `handle_message`. -/
inductive SdkObject where
  | ofBlock (b : ContentBlock)
  | ofSystem (subtype : String) (data : PyValue)
  | ofResult (r : ResultMsg)
  | ofOther (rendering : String)

/-- `sanitize_content`: SDK objects to plain key-value structures, with a
`str()` fallback for unrecognized types. -/
def sanitizeContent : SdkObject → PyValue
  | .ofBlock (.textBlock t) => .pyDict [("type", .pyStr "text"), ("text", .pyStr t)]
  | .ofBlock (.toolUseBlock i n inp) =>
      .pyDict [("type", .pyStr "tool_use"), ("id", .pyStr i), ("name", .pyStr n), ("input", inp)]
  | .ofBlock (.toolResultBlock tid c ie) =>
      .pyDict [("type", .pyStr "tool_result"), ("tool_use_id", .pyStr tid),
        ("content", c), ("is_error", optBoolPV ie)]
  | .ofBlock (.otherBlock rendering) => .pyStr rendering
  | .ofSystem st d => .pyDict [("type", .pyStr "system"), ("subtype", .pyStr st), ("data", d)]
  | .ofResult r => resultAsDict r
  | .ofOther rendering => .pyStr rendering

/-- The loop body of `handle_message` over one assistant content block.  A
block matching no `isinstance` arm produces nothing (the loop has no `else`). -/
def handleBlock (model : String) : ContentBlock → List Effect
  | .textBlock t =>
      [.consolePrint ("Claude: " ++ t ++ "\n"),
       .logEvent "assistant.text" [("model", .pyStr model), ("text", .pyStr t)]]
  | .toolUseBlock i n inp =>
      [.consolePrint ("[tool-call] " ++ n ++ " requested with input:\n" ++ prettyJson inp ++ "\n"),
       .logEvent "assistant.tool_request" [("tool_name", .pyStr n), ("tool_use_id", .pyStr i)]]
  | .toolResultBlock tid c ie =>
      [.consolePrint ("[tool-result] Result for " ++ tid ++ ":\n" ++ prettyJson c ++ "\n"),
       .logEvent "assistant.tool_result" [("tool_use_id", .pyStr tid), ("is_error", optBoolPV ie)]]
  | .otherBlock _ => []

/-- `handle_message`: the ordered list of effects produced for one message. -/
def handleMessage : Message → List Effect
  | .assistant model content => content.flatMap (handleBlock model)
  | .system subtype data =>
      [.consolePrint ("[system:" ++ subtype ++ "] " ++ pyStrOf data ++ "\n"),
       .logEvent "system.message" [("subtype", .pyStr subtype), ("data", data)]]
  | .result r =>
      [.consolePrint ("[result] session complete â€” duration=" ++ toString r.duration_ms ++
          "ms cost=" ++ pyStrOf r.total_cost_usd ++ "\n"),
       .logEvent "result.summary"
         [("duration_ms", .pyInt r.duration_ms), ("api_duration_ms", .pyInt r.duration_api_ms),
          ("total_cost_usd", r.total_cost_usd), ("num_turns", .pyInt r.num_turns)]]
  | .other rendering =>
      [.consolePrint ("[message] " ++ rendering ++ "\n"),
       .logEvent "message.unknown" [("value", sanitizeContent (.ofOther rendering))]]

/-- The console prints in an effect list, in order. -/
def printsOf (es : List Effect) : List String :=
  es.filterMap (fun e => match e with | .consolePrint s => some s | _ => none)

/-- The event-type strings of the structured log calls, in order. -/
def logTypesOf (es : List Effect) : List String :=
  es.filterMap (fun e => match e with | .logEvent t _ => some t | _ => none)

/-! ## CLI drivers (`ensure_api_key`, `run_basic_query`, `run_demo_tools`) -/

/-- `raise SystemExit(msg)` on a string message: process exit status 1 with
the message printed to stderr. -/
structure ExitError where
  code : Nat
  message : String
deriving Repr, DecidableEq

def apiKeyMissingMsg : String :=
  "ANTHROPIC_API_KEY is not set. Export your Claude API key before running."

/-- `ensure_api_key`: `if not api_key` is Python truthiness, so an unset or
empty variable raises `SystemExit`. -/
def ensureApiKey (anthropic_api_key : Option String) : Except ExitError String :=
  match anthropic_api_key with
  | some k => if k != "" then .ok k else .error ⟨1, apiKeyMissingMsg⟩
  | none => .error ⟨1, apiKeyMissingMsg⟩

/-- The `query` subcommand's parsed flags. -/
structure QueryArgs where
  prompt : String
  system_prompt : Option String := none
  model : Option String := none
  allowed_tools : List String := []
  permission_mode : Option String := none
  cwd : Option String := none
  max_turns : Option Int := none

/-- `run_basic_query` over a given finite message stream from the external
agent runtime: the key check, then the effect trace of the run.  An `.error`
outcome is the `SystemExit` raised before any session or network activity
(hence the empty trace). -/
def runBasicQuery (anthropic_api_key : Option String) (args : QueryArgs)
    (stream : List Message) : Except ExitError (List Effect) := do
  let _ ← ensureApiKey anthropic_api_key
  .ok ([Effect.logEvent "query.start"
          [("allowed_tools", .pyList (args.allowed_tools.map PyValue.pyStr)),
           ("model", optPV args.model),
           ("permission_mode", optPV args.permission_mode)]]
       ++ stream.flatMap handleMessage
       ++ [Effect.logEvent "query.complete" [("prompt", .pyStr (args.prompt.take 120))]])

/-- The `demo-tools` subcommand's parsed flags. -/
structure DemoArgs where
  prompt : String
  max_turns : Int := 4

def serverName : String := "demo"

/-- The fixed allow-list built in `run_demo_tools`. -/
def demoAllowedTools : List String :=
  ["mcp__" ++ serverName ++ "__lookup_user_profile",
   "mcp__" ++ serverName ++ "__list_open_invoices",
   "mcp__" ++ serverName ++ "__generate_finance_summary"]

/-- `run_demo_tools` over a given finite message stream: the key check, then
the effect trace of the demo session. -/
def runDemoTools (anthropic_api_key : Option String) (args : DemoArgs)
    (stream : List Message) : Except ExitError (List Effect) := do
  let _ ← ensureApiKey anthropic_api_key
  .ok ([Effect.logEvent "demo.start"
          [("prompt", .pyStr args.prompt),
           ("allowed_tools", .pyList (demoAllowedTools.map PyValue.pyStr)),
           ("max_turns", .pyInt args.max_turns)]]
       ++ stream.flatMap handleMessage
       ++ [Effect.logEvent "demo.complete" [("prompt", .pyStr (args.prompt.take 120))]])

/-! ## Telemetry configuration (`braintrust_logging.py`) and `main` -/

/-- The environment variables the telemetry provider reads (`none` = unset). -/
structure Env where
  braintrust_api_key : Option String := none
  braintrust_project_id : Option String := none
  braintrust_otlp_endpoint : Option String := none
  braintrust_service_name : Option String := none
  braintrust_service_version : Option String := none
deriving Repr, DecidableEq

def DEFAULT_OTLP_ENDPOINT : String := "https://api.braintrust.dev/otel/v1/logs"

/-- `BraintrustLoggingConfig` (the `log_level` field, a fixed default the
claims never touch, is omitted). -/
structure BraintrustLoggingConfig where
  api_key : String
  project_id : String
  endpoint : String := DEFAULT_OTLP_ENDPOINT
  service_name : String := "claude-code-cli"
  service_version : Option String := none
deriving Repr, DecidableEq

def missingConfigMsg : String :=
  "Set BRAINTRUST_API_KEY and BRAINTRUST_PROJECT_ID to enable telemetry."

/-- `resolve_config_from_env`: `os.getenv(name, default)` yields the default
only when the variable is unset; `if not api_key or not project_id` is Python
truthiness, and the raised `MissingBraintrustConfig` is the `.error` case.
In the `.ok` case both variables are truthy, so `getD ""` returns them. -/
def resolveConfigFromEnv (env : Env) : Except String BraintrustLoggingConfig :=
  let api_key := env.braintrust_api_key
  let project_id := env.braintrust_project_id
  let endpoint := env.braintrust_otlp_endpoint.getD DEFAULT_OTLP_ENDPOINT
  let service_name := env.braintrust_service_name.getD "claude-code-cli"
  let service_version := env.braintrust_service_version
  if !truthy api_key || !truthy project_id then
    .error missingConfigMsg
  else
    .ok ⟨api_key.getD "", project_id.getD "", endpoint, service_name, service_version⟩

/-- The handlers that `configure_logging` can attach to the process-wide
`"claude_code_cli"` logger: the OTLP `LoggingHandler` (a direct subclass of
`logging.Handler`, so not a `StreamHandler`) and the console
`logging.StreamHandler`. -/
inductive Handler where
  | otlpLoggingHandler
  | consoleStreamHandler
deriving Repr, DecidableEq

/-- `type(h) is LoggingHandler` (the exact-type set-membership check). -/
def isLoggingHandlerType : Handler → Bool
  | .otlpLoggingHandler => true
  | _ => false

/-- `isinstance(h, logging.StreamHandler)`. -/
def isStreamHandlerInst : Handler → Bool
  | .consoleStreamHandler => true
  | _ => false

/-- The handler-attachment steps of `configure_logging` on the logger's
current handler list: add the Braintrust handler unless one is already
attached, then add a console handler unless a `StreamHandler` is present
(the second check sees the list after the first append, as in the source). -/
def configureHandlers (handlers : List Handler) : List Handler :=
  let afterRemote :=
    if handlers.any isLoggingHandlerType then handlers
    else handlers ++ [Handler.otlpLoggingHandler]
  if afterRemote.any isStreamHandlerInst then afterRemote
  else afterRemote ++ [Handler.consoleStreamHandler]

/-- `n` successive calls of `configure_logging`, tracking the handler list. -/
def configureLoggingTimes : Nat → List Handler → List Handler
  | 0, hs => hs
  | n + 1, hs => configureLoggingTimes n (configureHandlers hs)

/-- Which logger a context carries: the fully configured Braintrust one, or
the console-only fallback built in `main`'s `except` arms. -/
inductive LoggerKind where
  | braintrust
  | consoleOnly
deriving Repr, DecidableEq

/-- The shutdown callback stored in the context: `_shutdown` (flush, then
release) or the fallback `lambda: None`. -/
inductive ShutdownKind where
  | flushThenRelease
  | noop
deriving Repr, DecidableEq

/-- The pair `configure_logging` returns. -/
structure BraintrustLoggingContext where
  logger : LoggerKind
  shutdown : ShutdownKind
deriving Repr, DecidableEq

/-- `configure_logging` on a resolved config: builds the exporter and handler
chain and returns the Braintrust logger with the flush-then-release hook. -/
def configureLogging (_config : BraintrustLoggingConfig) : BraintrustLoggingContext :=
  ⟨.braintrust, .flushThenRelease⟩

/-- `configure_logging_from_env`. -/
def configureLoggingFromEnv (env : Env) : Except String BraintrustLoggingContext :=
  (resolveConfigFromEnv env).map configureLogging

/-- The telemetry-setup step of `main`: the `try/except MissingBraintrustConfig`
block.  The `Bool` records whether the degraded-mode warning was logged; the
fallback context carries a console-only logger and a no-op shutdown. -/
def mainSetupContext (env : Env) : BraintrustLoggingContext × Bool :=
  match configureLoggingFromEnv env with
  | .ok ctx => (ctx, false)
  | .error _ => (⟨.consoleOnly, .noop⟩, true)

/-- One step in `main`'s observable trace. -/
inductive MainEvent where
  | warnedMissingConfig
  | bodyEffect (e : Effect)
  | flushCalled
  | releaseCalled

/-- Trace-level `try/finally`: an action is the pair of the effects it
performed (truncated at its failure point) and whether it raised.  The body
runs first, the finalizer always runs afterwards, and an exception from
either propagates. -/
def tryFinallyTrace (body fin : List MainEvent × Bool) : List MainEvent × Bool :=
  (body.1 ++ fin.1, body.2 || fin.2)

/-- `logger_provider.force_flush()`; `flushRaises` says whether it fails. -/
def flushAction (flushRaises : Bool) : List MainEvent × Bool := ([.flushCalled], flushRaises)

/-- `logger_provider.shutdown()`: releases exporter resources. -/
def releaseAction : List MainEvent × Bool := ([.releaseCalled], false)

/-- Running the context's shutdown callback: `_shutdown` is
`try: force_flush() finally: shutdown()`; the fallback is `lambda: None`. -/
def shutdownRun : ShutdownKind → Bool → List MainEvent × Bool
  | .flushThenRelease, flushRaises => tryFinallyTrace (flushAction flushRaises) releaseAction
  | .noop, _ => ([], false)

/-- `main` after argument parsing: telemetry setup, then
`try: asyncio.run(...) finally: logging_context.shutdown()`.  The selected
command's run is abstracted as the effects it performed before returning or
failing (`bodyEffects`, `bodyRaises`). -/
def mainRun (env : Env) (bodyEffects : List Effect) (bodyRaises flushRaises : Bool) :
    List MainEvent × Bool :=
  let (ctx, warned) := mainSetupContext env
  let pre : List MainEvent := if warned then [.warnedMissingConfig] else []
  let res := tryFinallyTrace (bodyEffects.map MainEvent.bodyEffect, bodyRaises)
    (shutdownRun ctx.shutdown flushRaises)
  (pre ++ res.1, res.2)

/-! ## Claims -/

/-- Claim C1: for each supported streamed message variant — an assistant text
block, an assistant tool-use block, a tool-result block, a system message, a
result message, and any other message — `handle_message` produces exactly one
console print and exactly one structured log call, whose event-type string is
respectively `assistant.text`, `assistant.tool_request`,
`assistant.tool_result`, `system.message`, `result.summary` and
`message.unknown`. -/
theorem handleMessage_one_print_one_log :
    (∀ m t, (printsOf (handleMessage (.assistant m [.textBlock t]))).length = 1 ∧
      logTypesOf (handleMessage (.assistant m [.textBlock t])) = ["assistant.text"]) ∧
    (∀ m i n inp, (printsOf (handleMessage (.assistant m [.toolUseBlock i n inp]))).length = 1 ∧
      logTypesOf (handleMessage (.assistant m [.toolUseBlock i n inp])) =
        ["assistant.tool_request"]) ∧
    (∀ m tid c ie,
      (printsOf (handleMessage (.assistant m [.toolResultBlock tid c ie]))).length = 1 ∧
      logTypesOf (handleMessage (.assistant m [.toolResultBlock tid c ie])) =
        ["assistant.tool_result"]) ∧
    (∀ st d, (printsOf (handleMessage (.system st d))).length = 1 ∧
      logTypesOf (handleMessage (.system st d)) = ["system.message"]) ∧
    (∀ r, (printsOf (handleMessage (.result r))).length = 1 ∧
      logTypesOf (handleMessage (.result r)) = ["result.summary"]) ∧
    (∀ rend, (printsOf (handleMessage (.other rend))).length = 1 ∧
      logTypesOf (handleMessage (.other rend)) = ["message.unknown"]) := by
  refine ⟨fun m t => ⟨rfl, rfl⟩, fun m i n inp => ⟨rfl, rfl⟩, fun m tid c ie => ⟨rfl, rfl⟩,
    fun st d => ⟨rfl, rfl⟩, fun r => ⟨rfl, rfl⟩, fun rend => ⟨rfl, rfl⟩⟩

/-- Claim C2, counterexample: the argument dict `{"user_id": ""}` supplies a
user_id that differs from the fixed id, yet `lookup_user_profile` returns the
profile with no error flag (Python truthiness treats `""` like an omitted id),
contradicting the claim that every supplied non-matching id is error-flagged. -/
theorem lookupUserProfile_empty_id_counterexample :
    (some "" ≠ (none : Option String)) ∧ ("" ≠ sampleUser.id) ∧
    (lookupUserProfile ⟨some "", none⟩).2.is_error = none ∧
    (lookupUserProfile ⟨some "", none⟩).2 = ⟨[prettyJson sampleUserPV], none⟩ :=
  ⟨by decide, by decide, rfl, rfl⟩

/-- Claim C2 as amended: an omitted, empty, or matching `user_id` yields the
non-error response whose single text item is the pretty-printed fixed profile;
a supplied non-empty non-matching `user_id` yields the error-flagged
"not found" response.  The tool is a total function of its argument dict, so
it is deterministic and never raises. -/
theorem lookupUserProfile_cases (args : ToolArgs) :
    ((args.user_id = none ∨ args.user_id = some "" ∨ args.user_id = some sampleUser.id) →
      (lookupUserProfile args).2 = ⟨[prettyJson sampleUserPV], none⟩) ∧
    (∀ s, args.user_id = some s → s ≠ "" → s ≠ sampleUser.id →
      (lookupUserProfile args).2 =
        ⟨["No customer found for id \x27" ++ s ++ "\x27."], some true⟩) := by
  constructor
  · rintro (h | h | h) <;> simp [lookupUserProfile, h]
  · intro s hs h1 h2
    simp [lookupUserProfile, hs, h1, h2]

/-- Witness for `lookupUserProfile_cases` at the concrete id "zed-999". -/
theorem lookupUserProfile_cases_witness :
    (lookupUserProfile ⟨some "zed-999", none⟩).2 =
      ⟨["No customer found for id \x27zed-999\x27."], some true⟩ :=
  (lookupUserProfile_cases ⟨some "zed-999", none⟩).2 "zed-999" rfl (by decide) (by decide)

/-- Claim C3, counterexample: the argument dict `{"user_id": ""}` supplies a
non-matching user_id, yet `list_open_invoices` returns the fixed invoice list
rather than the empty-result message the claim requires for a non-matching id
(Python truthiness treats `""` like an omitted id). -/
theorem listOpenInvoices_empty_id_counterexample :
    ("" ≠ sampleUser.id) ∧
    (listOpenInvoices ⟨some "", none⟩).2 = ⟨[prettyJson openInvoicesPV], none⟩ ∧
    (listOpenInvoices ⟨some "", none⟩).2.content ≠
      ["No open invoices for customer \x27\x27."] :=
  ⟨by decide, rfl, by decide⟩

/-- Claim C3 as amended: an omitted, empty, or matching `user_id` yields the
fixed two-invoice list as a single text content item; a supplied non-empty
non-matching `user_id` yields the empty-result message; and in every case the
response carries no error flag — asymmetric with `lookup_user_profile`, which
flags its mismatch branch with `is_error = true`. -/
theorem listOpenInvoices_cases (args : ToolArgs) :
    ((args.user_id = none ∨ args.user_id = some "" ∨ args.user_id = some sampleUser.id) →
      (listOpenInvoices args).2 = ⟨[prettyJson openInvoicesPV], none⟩) ∧
    (∀ s, args.user_id = some s → s ≠ "" → s ≠ sampleUser.id →
      (listOpenInvoices args).2 =
        ⟨["No open invoices for customer \x27" ++ s ++ "\x27."], none⟩) ∧
    (listOpenInvoices args).2.is_error = none := by
  refine ⟨?_, ?_, ?_⟩
  · rintro (h | h | h) <;> simp [listOpenInvoices, h]
  · intro s hs h1 h2
    simp [listOpenInvoices, hs, h1, h2]
  · cases h : args.user_id with
    | none => simp [listOpenInvoices, h]
    | some s =>
        simp only [listOpenInvoices, h]
        split <;> rfl

/-- Witness for `listOpenInvoices_cases` at the concrete id "bob-1". -/
theorem listOpenInvoices_cases_witness :
    (listOpenInvoices ⟨some "bob-1", none⟩).2 =
      ⟨["No open invoices for customer \x27bob-1\x27."], none⟩ :=
  (listOpenInvoices_cases ⟨some "bob-1", none⟩).2.1 "bob-1" rfl (by decide) (by decide)

/-- Claim C4: for every argument dict, `generate_finance_summary` names the
last invoice of the fixed list — "INV-002" — as the most urgent item, and the
total it reports is the exact sum of the two fixed amounts,
1200.00 + 580.50 = 1780.50 dollars, rendered "1,780.50" in the summary. -/
theorem generateFinanceSummary_urgent_and_total :
    (openInvoices.getLastD ⟨"", 0, "", ""⟩).id = "INV-002" ∧
    totalDueCents = 120000 + 58050 ∧
    (totalDueCents : ℚ) / 100 = 1780.50 ∧
    ∀ args : ToolArgs, (generateFinanceSummary args).2 =
      ⟨["Customer Casey Doe currently owes $1,780.50 across 2 invoices. " ++
        "The most urgent item is invoice INV-002 which is marked overdue."], none⟩ := by
  have h : totalDueCents = 178050 := rfl
  refine ⟨rfl, rfl, ?_, fun args => rfl⟩
  rw [h]
  norm_num

/-- Claim C10: `generate_finance_summary` ignores its arguments entirely —
any two argument dicts produce equal responses; the summary is a constant of
the fixed dataset (only the log call mentions the arguments). -/
theorem generateFinanceSummary_ignores_args (a b : ToolArgs) :
    (generateFinanceSummary a).2 = (generateFinanceSummary b).2 := rfl

/-- Claim C5: when `BRAINTRUST_API_KEY` or `BRAINTRUST_PROJECT_ID` is unset,
telemetry configuration fails with `MissingBraintrustConfig` but does not
escape the CLI driver: `main` catches it, logs the warning, substitutes a
console-only logger with a no-op shutdown, and the primary command's run still
completes (its full effect trace appears and nothing is raised). -/
theorem telemetry_missing_config_fallback (env : Env)
    (h : env.braintrust_api_key = none ∨ env.braintrust_project_id = none) :
    configureLoggingFromEnv env = .error missingConfigMsg ∧
    mainSetupContext env = (⟨.consoleOnly, .noop⟩, true) ∧
    ∀ bodyEffects flushRaises,
      mainRun env bodyEffects false flushRaises =
        (MainEvent.warnedMissingConfig :: bodyEffects.map MainEvent.bodyEffect, false) := by
  have hres : resolveConfigFromEnv env = .error missingConfigMsg := by
    rcases h with h | h <;> simp [resolveConfigFromEnv, truthy, h]
  have hcfg : configureLoggingFromEnv env = .error missingConfigMsg := by
    simp [configureLoggingFromEnv, hres, Except.map]
  have hctx : mainSetupContext env = (⟨.consoleOnly, .noop⟩, true) := by
    simp [mainSetupContext, hcfg]
  refine ⟨hcfg, hctx, fun be ff => ?_⟩
  simp [mainRun, hctx, tryFinallyTrace, shutdownRun]

/-- Witness for `telemetry_missing_config_fallback` with every variable unset. -/
theorem telemetry_missing_config_fallback_witness :
    configureLoggingFromEnv ⟨none, none, none, none, none⟩ = .error missingConfigMsg ∧
    mainSetupContext ⟨none, none, none, none, none⟩ =
      (⟨LoggerKind.consoleOnly, ShutdownKind.noop⟩, true) :=
  ⟨(telemetry_missing_config_fallback ⟨none, none, none, none, none⟩ (Or.inl rfl)).1,
   (telemetry_missing_config_fallback ⟨none, none, none, none, none⟩ (Or.inl rfl)).2.1⟩

/-- Claim C6: with `ANTHROPIC_API_KEY` unset or empty, both `run_basic_query`
and `run_demo_tools` raise `SystemExit` (status 1, descriptive message) and
produce an empty effect trace — no session is opened and no network call is
made, whatever arguments and stream the run would otherwise have seen. -/
theorem missing_anthropic_key_exits (key : Option String) (qargs : QueryArgs)
    (dargs : DemoArgs) (stream : List Message)
    (h : key = none ∨ key = some "") :
    runBasicQuery key qargs stream = .error ⟨1, apiKeyMissingMsg⟩ ∧
    runDemoTools key dargs stream = .error ⟨1, apiKeyMissingMsg⟩ := by
  rcases h with h | h <;> subst h <;> exact ⟨rfl, rfl⟩

/-- Witness for `missing_anthropic_key_exits` with an unset key. -/
theorem missing_anthropic_key_exits_witness :
    runBasicQuery none ⟨"hello", none, none, [], none, none, none⟩ [] =
      .error ⟨1, apiKeyMissingMsg⟩ ∧
    runDemoTools none ⟨"demo prompt", 4⟩ [] = .error ⟨1, apiKeyMissingMsg⟩ :=
  missing_anthropic_key_exits none ⟨"hello", none, none, [], none, none, none⟩
    ⟨"demo prompt", 4⟩ [] (Or.inl rfl)

/-- `configure_logging` leaves an already fully configured handler list
unchanged. -/
theorem configureHandlers_stable :
    configureHandlers [Handler.otlpLoggingHandler, Handler.consoleStreamHandler] =
      [Handler.otlpLoggingHandler, Handler.consoleStreamHandler] := rfl

/-- Iterating `configure_logging` from the fully configured state is stable. -/
theorem configureLoggingTimes_stable (n : Nat) :
    configureLoggingTimes n [Handler.otlpLoggingHandler, Handler.consoleStreamHandler] =
      [Handler.otlpLoggingHandler, Handler.consoleStreamHandler] := by
  induction n with
  | zero => rfl
  | succ n ih =>
      show configureLoggingTimes n
        (configureHandlers [Handler.otlpLoggingHandler, Handler.consoleStreamHandler]) = _
      rw [configureHandlers_stable]
      exact ih

/-- Claim C7: after any positive number of successive `configure_logging`
calls on the initially handler-free `"claude_code_cli"` logger, the handler
list is exactly one remote OTLP `LoggingHandler` followed by one console
`StreamHandler`; repeated configuration never duplicates either handler. -/
theorem configureLogging_idempotent_handlers (n : Nat) :
    configureLoggingTimes (n + 1) [] =
      [Handler.otlpLoggingHandler, Handler.consoleStreamHandler] ∧
    (configureLoggingTimes (n + 1) []).count Handler.otlpLoggingHandler = 1 ∧
    (configureLoggingTimes (n + 1) []).count Handler.consoleStreamHandler = 1 := by
  have h : configureLoggingTimes (n + 1) [] =
      [Handler.otlpLoggingHandler, Handler.consoleStreamHandler] := by
    show configureLoggingTimes n (configureHandlers []) = _
    have h0 : configureHandlers [] =
        [Handler.otlpLoggingHandler, Handler.consoleStreamHandler] := rfl
    rw [h0]
    exact configureLoggingTimes_stable n
  refine ⟨h, ?_, ?_⟩ <;> rw [h] <;> rfl

/-- Claim C8: the telemetry context's `_shutdown` runs the flush first and the
resource release second, and the release step runs even when the flush raises
(try/finally); moreover `main` runs the context's shutdown in a `finally`
block, so its trace always ends with the shutdown steps — in particular, when
telemetry was configured, a failing streaming run still reaches the release. -/
theorem shutdown_flush_then_release_guaranteed :
    (∀ flushRaises, (shutdownRun .flushThenRelease flushRaises).1 =
      [MainEvent.flushCalled, MainEvent.releaseCalled]) ∧
    (∀ env bodyEffects bodyRaises flushRaises,
      List.IsSuffix (shutdownRun (mainSetupContext env).1.shutdown flushRaises).1
        (mainRun env bodyEffects bodyRaises flushRaises).1) ∧
    (∀ env c, resolveConfigFromEnv env = .ok c →
      ∀ bodyEffects bodyRaises flushRaises,
        MainEvent.releaseCalled ∈ (mainRun env bodyEffects bodyRaises flushRaises).1) := by
  refine ⟨fun ff => rfl, ?_, ?_⟩
  · intro env be br ff
    rcases hm : mainSetupContext env with ⟨ctx, warned⟩
    refine ⟨(if warned then [MainEvent.warnedMissingConfig] else []) ++
      be.map MainEvent.bodyEffect, ?_⟩
    simp [mainRun, hm, tryFinallyTrace, List.append_assoc]
  · intro env c hres be br ff
    have hctx : mainSetupContext env =
        (⟨LoggerKind.braintrust, ShutdownKind.flushThenRelease⟩, false) := by
      simp [mainSetupContext, configureLoggingFromEnv, hres, configureLogging, Except.map]
    simp [mainRun, hctx, tryFinallyTrace, shutdownRun, flushAction, releaseAction]

/-- Witness for `shutdown_flush_then_release_guaranteed`: telemetry configured,
the streaming run fails and the flush fails, yet the release step is in the
trace. -/
theorem shutdown_flush_then_release_guaranteed_witness :
    MainEvent.releaseCalled ∈
      (mainRun ⟨some "key", some "proj", none, none, none⟩ [] true true).1 :=
  shutdown_flush_then_release_guaranteed.2.2 ⟨some "key", some "proj", none, none, none⟩
    ⟨"key", "proj", DEFAULT_OTLP_ENDPOINT, "claude-code-cli", none⟩ rfl [] true true

/-- Claim C9: `pretty_json` is a total function into strings — it never
raises; when JSON serialization fails with `TypeError` it returns the generic
`str()` rendering of the value, and when serialization succeeds it returns the
serialized string. -/
theorem prettyJson_total_with_fallback (v : PyValue) :
    (∀ e, jsonDumps v = .error e → prettyJson v = pyStrOf v) ∧
    (∀ s, jsonDumps v = .ok s → prettyJson v = s) := by
  constructor
  · intro e h
    simp [prettyJson, h]
  · intro s h
    simp [prettyJson, h]

/-- Witness for `prettyJson_total_with_fallback` at a non-serializable object. -/
theorem prettyJson_total_with_fallback_witness :
    jsonDumps (PyValue.pyObj "<Resource object>") = .error () ∧
    prettyJson (PyValue.pyObj "<Resource object>") =
      pyStrOf (PyValue.pyObj "<Resource object>") :=
  ⟨rfl, (prettyJson_total_with_fallback (PyValue.pyObj "<Resource object>")).1 () rfl⟩
